import Mathlib

/-!
Verification of the semantic retrieval and multi-provider generation layer of the
notebook backend.  Python services and endpoints are shallowly embedded as Lean
functions: network calls (LLM chat, embedding backends, TTS, the pgvector index)
become explicit function parameters or abstract similarity functions, floats
become rationals, and fallible code returns `Except`/`Option`.
-/

namespace Notebook

/-- Model of Python `str.strip()` (ASCII whitespace): drop whitespace characters
from both ends. -/
def pyStrip (s : String) : String :=
  String.mk (((s.data.dropWhile Char.isWhitespace).reverse.dropWhile Char.isWhitespace).reverse)

/-- Model of Python string slicing `s[:n]` (by code points). -/
def pyTake (s : String) (n : Nat) : String := String.mk (s.data.take n)

/-- A chat message dict with `role` and `content` keys. -/
structure Message where
  role : String
  content : String
deriving DecidableEq, Repr

/-- Python truthiness of an optional string: `None` and the empty string are falsy. -/
def falsyStr : Option String → Bool
  | none => true
  | some s => s == ""

/-! ### Rounding, modelling Python `round(x, 4)` (round-half-to-even). -/

/-- Round-half-to-even of a rational to an integer, modelling Python `round`. -/
def roundHalfEven (x : ℚ) : ℤ :=
  if x - (⌊x⌋ : ℚ) < 1/2 then ⌊x⌋
  else if 1/2 < x - (⌊x⌋ : ℚ) then ⌊x⌋ + 1
  else if ⌊x⌋ % 2 = 0 then ⌊x⌋ else ⌊x⌋ + 1

/-- Model of Python `round(x, 4)`. -/
def round4 (x : ℚ) : ℚ := (roundHalfEven (x * 10000) : ℚ) / 10000

theorem floor_le_roundHalfEven (x : ℚ) : ⌊x⌋ ≤ roundHalfEven x := by
  unfold roundHalfEven
  split
  · exact le_refl _
  · split
    · exact le_add_of_nonneg_right (by norm_num)
    · split
      · exact le_refl _
      · exact le_add_of_nonneg_right (by norm_num)

/-- If the threshold is an integer multiple of `1/10000`, rounding a similarity to four
decimal places cannot push it below the threshold. -/
theorem le_round4_of_le {t s : ℚ} (hden : (t * 10000).den = 1) (hle : t ≤ s) :
    t ≤ round4 s := by
  have hnum : ((t * 10000).num : ℚ) = t * 10000 := by
    exact_mod_cast Rat.den_eq_one_iff (t * 10000) |>.mp hden
  have h1 : t * 10000 ≤ s * 10000 := by
    have : (0:ℚ) ≤ 10000 := by norm_num
    exact mul_le_mul_of_nonneg_right hle this
  have h2 : (t * 10000).num ≤ ⌊s * 10000⌋ := by
    rw [Int.le_floor, hnum]
    exact h1
  have h3 : (t * 10000).num ≤ roundHalfEven (s * 10000) :=
    le_trans h2 (floor_le_roundHalfEven _)
  have h4 : t * 10000 ≤ (roundHalfEven (s * 10000) : ℚ) := by
    rw [← hnum]; exact_mod_cast h3
  unfold round4
  rw [le_div_iff₀ (by norm_num : (0:ℚ) < 10000)]
  exact h4

/-! ### Notes data model and the pgvector similarity query

The SQL query shared by `semantic_search` (notes endpoint) and the retrieval step
of the `chat` endpoint:

```
SELECT id, title, content, tags, 1 - (embedding <=> :query_embedding) AS similarity
FROM notes
WHERE owner_id = :owner_id AND embedding IS NOT NULL AND is_archived = false
  AND 1 - (embedding <=> :query_embedding) >= :threshold
ORDER BY similarity DESC LIMIT :limit
```

The cosine similarity `1 - (embedding <=> query_embedding)` computed by the external
pgvector extension is abstracted as a function `sim : NoteRow → ℚ` (one per query
embedding); the notes table is a list of rows. -/

/-- A row of the `notes` table, with the fields the similarity query touches.
`hasEmbedding` models `embedding IS NOT NULL`. -/
structure NoteRow where
  id : String
  ownerId : String
  title : String
  content : String
  tags : List String
  hasEmbedding : Bool
  isArchived : Bool
deriving DecidableEq, Repr

/-- The WHERE clause plus similarity projection plus ORDER BY ... DESC plus LIMIT of the
shared similarity query. -/
def similarityRows (db : List NoteRow) (sim : NoteRow → ℚ) (ownerId : String)
    (threshold : ℚ) (lim : Nat) : List (NoteRow × ℚ) :=
  let rows := (db.filter (fun n =>
      n.ownerId == ownerId && n.hasEmbedding && !n.isArchived
        && decide (threshold ≤ sim n))).map (fun n => (n, sim n))
  (List.insertionSort (fun a b : NoteRow × ℚ => b.2 ≤ a.2) rows).take lim

/-- One entry of the semantic-search response (`NoteSearchResult`). -/
structure NoteSearchResult where
  id : String
  title : String
  content : String
  tags : List String
  similarity : ℚ
deriving DecidableEq, Repr

/-- The `results` list construction of the semantic-search response: content preview
truncation `content[:500] + "..."` and `round(similarity, 4)`. -/
def searchResultOfRow (r : NoteRow × ℚ) : NoteSearchResult :=
  { id := r.1.id
    title := r.1.title
    content := if r.1.content.length > 500 then pyTake r.1.content 500 ++ "..." else r.1.content
    tags := r.1.tags
    similarity := round4 r.2 }

/-- The `semantic_search` endpoint result list (the API-key guard and the query-embedding
call precede this; `sim` abstracts similarity to the query embedding). -/
def semantic_search (db : List NoteRow) (sim : NoteRow → ℚ) (ownerId : String)
    (threshold : ℚ) (lim : Nat) : List NoteSearchResult :=
  (similarityRows db sim ownerId threshold lim).map searchResultOfRow

/-- A context note assembled by the `chat` endpoint from a fetched row. -/
structure ContextNote where
  id : String
  title : String
  content : String
  similarity : ℚ
deriving DecidableEq, Repr

/-- The retrieval step of the `chat` endpoint: the shared similarity query with
threshold `0.3` and limit `5`, projected to context-note dicts with
`round(similarity, 4)`. -/
def chatContextNotes (db : List NoteRow) (sim : NoteRow → ℚ) (ownerId : String) :
    List ContextNote :=
  (similarityRows db sim ownerId (3/10) 5).map
    (fun r => { id := r.1.id, title := r.1.title, content := r.1.content,
                similarity := round4 r.2 })

/-! ### LLM service: provider resolution and dispatch (`app/services/llm.py`)

`chat` and `chat_stream` are modelled by the provider-resolution and dispatch
logic; the value carried by `.ok` names the backend handler that is invoked
(`_chat_openai`, `_chat_anthropic`, ...), and `.error` models the
`raise ValueError(f"Unknown provider: {provider}")` branch. -/

/-- Model of Python `str.lower()` (ASCII case folding). -/
def pyLower (s : String) : String := String.mk (s.data.map Char.toLower)

/-- Model of `LLMService._get_provider`: lower-case the configured name and fall back to
`"openai"` when it is not one of the four known providers. -/
def llm_get_provider (configured : String) : String :=
  if pyLower configured = "openai" ∨ pyLower configured = "anthropic"
      ∨ pyLower configured = "google" ∨ pyLower configured = "ollama"
  then pyLower configured else "openai"

/-- Resolution step `provider = provider or self._get_provider()`: a falsy override (absent or empty
string) is replaced by the configured default. -/
def resolveProvider (override : Option String) (configured : String) : String :=
  match override with
  | none => llm_get_provider configured
  | some p => if p = "" then llm_get_provider configured else p

/-- Model of `LLMService.chat`: resolve the provider and dispatch to the matching backend
handler; any other resolved name raises `ValueError`. -/
def llm_chat (override : Option String) (configured : String) : Except String String :=
  let provider := resolveProvider override configured
  if provider = "openai" then .ok "openai"
  else if provider = "anthropic" then .ok "anthropic"
  else if provider = "google" then .ok "google"
  else if provider = "ollama" then .ok "ollama"
  else .error ("Unknown provider: " ++ provider)

/-- Model of `LLMService.chat_stream`: same resolution and dispatch structure as `chat`. -/
def llm_chat_stream (override : Option String) (configured : String) : Except String String :=
  let provider := resolveProvider override configured
  if provider = "openai" then .ok "openai"
  else if provider = "anthropic" then .ok "anthropic"
  else if provider = "google" then .ok "google"
  else if provider = "ollama" then .ok "ollama"
  else .error ("Unknown provider: " ++ provider)

/-! ### Anthropic message conversion (`_chat_anthropic`, `_chat_stream_anthropic`) -/

/-- The message-conversion loop shared by `_chat_anthropic` and
`_chat_stream_anthropic`: system-role messages are removed from the list and, while
the running system prompt is falsy, the current system message content is assigned
to it. Returns the converted message list and the final system prompt value. -/
def anthropicSplit : List Message → Option String → List Message × Option String
  | [], sp => ([], sp)
  | m :: rest, sp =>
    if m.role = "system" then
      anthropicSplit rest (if falsyStr sp then some m.content else sp)
    else
      let r := anthropicSplit rest sp
      (m :: r.1, r.2)

/-- The JSON payload sent to `https://api.anthropic.com/v1/messages`; `system = none`
models the key being absent. -/
structure AnthropicPayload where
  messages : List Message
  system : Option String
  maxTokens : Nat
  temperature : ℚ
  stream : Bool
deriving DecidableEq, Repr

/-- The payload built by `_chat_anthropic` (the `system` key is set only when the
final system prompt is truthy). -/
def chat_anthropic_payload (messages : List Message) (systemPrompt : Option String)
    (temperature : ℚ) (maxTokens : Nat) : AnthropicPayload :=
  let r := anthropicSplit messages systemPrompt
  { messages := r.1
    system := if falsyStr r.2 then none else r.2
    maxTokens := maxTokens
    temperature := temperature
    stream := false }

/-- The payload built by `_chat_stream_anthropic` (same conversion, `stream: true`). -/
def chat_stream_anthropic_payload (messages : List Message) (systemPrompt : Option String)
    (temperature : ℚ) (maxTokens : Nat) : AnthropicPayload :=
  let r := anthropicSplit messages systemPrompt
  { messages := r.1
    system := if falsyStr r.2 then none else r.2
    maxTokens := maxTokens
    temperature := temperature
    stream := true }

/-! ### Embedding service (`app/services/embeddings.py`)

Backend responses are explicit parameters: the OpenAI batch response is a list of
`(index, embedding)` items, the Ollama batch response a bare list of embeddings,
and the per-text Ollama call an abstract function `single`. -/

/-- Model of `EmbeddingService._get_provider`: Ollama for embeddings exactly when the LLM
provider is Ollama. -/
def embedding_get_provider (configuredLLM : String) : String :=
  if pyLower configuredLLM = "ollama" then "ollama" else "openai"

/-- The actions `generate_embedding` can take: return the zero vector locally, or
issue one network call to a backend with the cleaned text. -/
inductive EmbedAction where
  | zeroVector (dim : Nat)
  | openaiCall (cleanText : String)
  | ollamaCall (cleanText : String)
deriving DecidableEq, Repr

/-- Model of `EmbeddingService.generate_embedding`: empty or whitespace-only text returns the
zero vector of dimension `self._dimensions = 1536` before any backend dispatch;
otherwise the stripped text truncated to 32000 characters is sent to the resolved
backend. -/
def generate_embedding (text : String) (provider? : Option String)
    (configuredLLM : String) : EmbedAction :=
  let provider := match provider? with
    | none => embedding_get_provider configuredLLM
    | some p => if p = "" then embedding_get_provider configuredLLM else p
  if pyStrip text = "" then .zeroVector 1536
  else if provider = "ollama" then .ollamaCall (pyTake (pyStrip text) 32000)
  else .openaiCall (pyTake (pyStrip text) 32000)

/-- The zero vector `[0.0] * dims`. -/
def zeroEmbedding (dim : Nat) : List ℚ := List.replicate dim 0

/-- The cleaning step `clean_texts = [t.strip()[:32000] if t.strip() else "" for t in texts]`. -/
def cleanTexts (texts : List String) : List String :=
  texts.map (fun t => if pyStrip t = "" then "" else pyTake (pyStrip t) 32000)

/-- The padding step `processed_texts = [t if t else " " for t in clean_texts]`. -/
def processedTexts (texts : List String) : List String :=
  (cleanTexts texts).map (fun t => if t = "" then " " else t)

/-- One element of the OpenAI embeddings response `data` array: an embedding together
with the index of the input it belongs to. -/
structure EmbeddingItem where
  index : Nat
  embedding : List ℚ
deriving DecidableEq, Repr

/-- The loop `for i, text in enumerate(clean_texts): if not text: result[i] = [0.0] * dims`,
replacing the embeddings of originally empty texts by zero vectors.  (Faithful whenever
`clean.length ≤ result.length`; with more clean texts than results Python raises
IndexError, which cannot happen on same-length lists.) -/
def maskEmptyTexts : List String → List (List ℚ) → List (List ℚ)
  | [], res => res
  | _ :: _, [] => []
  | t :: ts, e :: es =>
    (if t = "" then zeroEmbedding 1536 else e) :: maskEmptyTexts ts es

/-- Model of `_generate_embeddings_batch_openai`: sort the response items by their `index`
field (modelling `sorted(response.data, key=lambda x: x.index)`), project out the
embeddings, and zero out positions whose cleaned text is empty. -/
def generate_embeddings_batch_openai (texts : List String)
    (responseData : List EmbeddingItem) : List (List ℚ) :=
  let clean := cleanTexts texts
  let sortedItems :=
    List.insertionSort (fun a b : EmbeddingItem => a.index ≤ b.index) responseData
  maskEmptyTexts clean (sortedItems.map (fun e => e.embedding))

/-- Model of `_generate_embeddings_batch_ollama`: if the response `embeddings` array is missing,
empty, or of mismatched length, fall back to one `_generate_embedding_ollama` call per
original text (abstracted as `single`); otherwise zero out positions whose cleaned
text is empty. -/
def generate_embeddings_batch_ollama (texts : List String)
    (responseEmbeddings : List (List ℚ)) (single : String → List ℚ) : List (List ℚ) :=
  let clean := cleanTexts texts
  if responseEmbeddings.isEmpty || responseEmbeddings.length ≠ texts.length then
    texts.map single
  else
    maskEmptyTexts clean responseEmbeddings

/-- The backend response for a batch when the backend embeds each processed text with
`f` and reports correct indices: item `i` carries `f (processed[i])`. -/
def enumItems (f : String → List ℚ) : Nat → List String → List EmbeddingItem
  | _, [] => []
  | i, t :: ts => ⟨i, f t⟩ :: enumItems f (i + 1) ts

/-- The in-order OpenAI batch response for `texts` under backend embedding function `f`. -/
def canonicalResponse (f : String → List ℚ) (texts : List String) : List EmbeddingItem :=
  enumItems f 0 (processedTexts texts)

/-! ### Chat service (`app/services/chat.py`) and the chat endpoint response -/

/-- The literal `ChatService.SYSTEM_PROMPT`. -/
def CHAT_SYSTEM_PROMPT : String :=
  "You are a helpful AI assistant that answers questions based on the user\x27s notes.\nUse the provided notes as context to answer the question. If the notes don\x27t contain relevant information,\nlet the user know and provide what help you can based on general knowledge.\n\nBe concise but thorough. Reference specific notes when relevant.\nIf you\x27re not sure about something, say so."

/-- The per-note context entries of `ChatService._build_context`, with 1-based
enumeration and `content[:2000]` truncation. -/
def chatContextParts : Nat → List ContextNote → List String
  | _, [] => []
  | i, n :: rest =>
    ("Note " ++ toString i ++ ": " ++ n.title ++ "\n" ++ pyTake n.content 2000)
      :: chatContextParts (i + 1) rest

/-- Model of `ChatService._build_context`. -/
def build_context (notes : List ContextNote) : String :=
  if notes.isEmpty then "No relevant notes found."
  else String.intercalate "\n\n---\n\n" (chatContextParts 1 notes)

/-- Model of `ChatService._build_messages`: a system message carrying the notes context, up to
the last 10 history messages when a truthy history is supplied, then the question. -/
def build_messages (question context : String) (history : List Message) : List Message :=
  [⟨"system", "Context from user\x27s notes:\n\n" ++ context⟩]
    ++ (if history.isEmpty then [] else history.drop (history.length - 10))
    ++ [⟨"user", question⟩]

/-- The arguments of one `llm_service.chat` / `chat_stream` invocation. -/
structure ChatCall where
  messages : List Message
  systemPrompt : Option String
  temperature : ℚ
  maxTokens : Nat
deriving DecidableEq, Repr

/-- The `llm_service.chat` invocation made by `ChatService.answer_question` (and the
`chat_stream` invocation of `answer_question_stream`, which is identical). -/
def answer_question_call (question : String) (contextNotes : List ContextNote)
    (history : List Message) : ChatCall :=
  { messages := build_messages question (build_context contextNotes) history
    systemPrompt := some CHAT_SYSTEM_PROMPT
    temperature := 7/10
    maxTokens := 1000 }

/-- One entry of the chat endpoint response `sources` list: id, title, similarity. -/
structure SourceRef where
  id : String
  title : String
  similarity : ℚ
deriving DecidableEq, Repr

/-- The chat endpoint response. -/
structure ChatEndpointResponse where
  answer : String
  sources : List SourceRef
deriving DecidableEq, Repr

/-- The `chat` endpoint after LLM availability and embedding succeed: retrieve context
notes, call the chat service, and return the answer together with the sources
projection of the context notes.  `answer` abstracts the LLM response text. -/
def chat_endpoint (db : List NoteRow) (sim : NoteRow → ℚ) (userId question : String)
    (history : List Message) (answer : String) : ChatCall × ChatEndpointResponse :=
  let ctx := chatContextNotes db sim userId
  (answer_question_call question ctx history,
   { answer := answer
     sources := ctx.map (fun n => { id := n.id, title := n.title, similarity := n.similarity }) })

/-! ### SSE event framing (`answer_question_stream`, `generate_summary_stream`)

`json.dumps` of the standard library is modelled by an explicit JSON string-escape
function (CPython default `ensure_ascii=True` escaping). -/

/-- Lower-case hexadecimal digit. -/
def hexDigit (n : Nat) : Char :=
  if n < 10 then Char.ofNat (48 + n) else Char.ofNat (87 + n)

/-- Four-digit lower-case hexadecimal rendering, as in JSON `\uXXXX` escapes. -/
def hex4 (n : Nat) : String :=
  String.mk [hexDigit (n / 4096 % 16), hexDigit (n / 256 % 16), hexDigit (n / 16 % 16),
    hexDigit (n % 16)]

/-- Escape one character the way CPython `json.dumps` renders string characters with
its default `ensure_ascii=True` (short escapes, `\uXXXX`, surrogate pairs). -/
def escapeJsonChar (c : Char) : String :=
  if c = '"' then "\\\""
  else if c = '\\' then "\\\\"
  else if c = '\n' then "\\n"
  else if c = '\r' then "\\r"
  else if c = '\t' then "\\t"
  else if c.toNat = 8 then "\\b"
  else if c.toNat = 12 then "\\f"
  else if c.toNat < 32 then "\\u" ++ hex4 c.toNat
  else if c.toNat < 127 then String.singleton c
  else if c.toNat < 65536 then "\\u" ++ hex4 c.toNat
  else
    "\\u" ++ hex4 (55296 + (c.toNat - 65536) / 1024)
      ++ "\\u" ++ hex4 (56320 + (c.toNat - 65536) % 1024)

/-- JSON string body escaping, modelling `json.dumps` for `str` values. -/
def jsonEscape (s : String) : String := String.join (s.data.map escapeJsonChar)

/-- A JSON string literal. -/
def jsonString (s : String) : String := "\"" ++ jsonEscape s ++ "\""

/-- The content event line: the text data: followed by the JSON object carrying a content key, then a blank line. -/
def sseContentEvent (chunk : String) : String :=
  "data: \x7b\"content\": " ++ jsonString chunk ++ "\x7d\n\n"

/-- The error event line: the text data: followed by the JSON object carrying an error key, then a blank line. -/
def sseErrorEvent (msg : String) : String :=
  "data: \x7b\"error\": " ++ jsonString msg ++ "\x7d\n\n"

/-- The terminating `data: [DONE]\n\n` event. -/
def sseDoneEvent : String := "data: [DONE]\n\n"

/-- The observable behaviour of one upstream `llm_service.chat_stream` consumption:
the chunks yielded before the stream either completes (`failure = none`) or raises
an exception with message `e` (`failure = some e`). -/
structure StreamOutcome where
  chunks : List String
  failure : Option String
deriving DecidableEq, Repr

/-- Model of `ChatService.answer_question_stream`: each upstream chunk becomes one content
event; on normal completion a final `[DONE]` event is emitted; an exception anywhere
in the `try` block is caught and reported as a single error event, after which the
generator ends. -/
def answer_question_stream_events (o : StreamOutcome) : List String :=
  o.chunks.map sseContentEvent ++
    (match o.failure with
     | none => [sseDoneEvent]
     | some e => [sseErrorEvent e])

/-- Model of `SummaryService.generate_summary_stream`: identical event framing around the
upstream stream. -/
def generate_summary_stream_events (o : StreamOutcome) : List String :=
  o.chunks.map sseContentEvent ++
    (match o.failure with
     | none => [sseDoneEvent]
     | some e => [sseErrorEvent e])

/-! ### Summary service (`app/services/summary.py`) -/

/-- The `SUMMARY_PROMPTS` dict. -/
def SUMMARY_PROMPTS : List (String × String) :=
  [("comprehensive",
    "Generate a comprehensive summary of the provided sources.\nInclude:\n- Main themes and topics covered\n- Key arguments and findings\n- Important details and supporting evidence\n- Connections between different sources\n\nFormat the summary with clear sections and bullet points where appropriate."),
   ("key_points",
    "Extract and list the key points from the provided sources.\nFormat as a numbered list of the most important takeaways.\nEach point should be concise but informative (1-2 sentences).\nAim for 5-10 key points."),
   ("brief",
    "Provide a brief, executive summary of the provided sources in 2-3 paragraphs.\nFocus on the most essential information and main conclusions.\nKeep it concise and easy to scan.")]

/-- The lookup `SUMMARY_PROMPTS.get(summary_type, SUMMARY_PROMPTS["comprehensive"])`. -/
def summaryPromptFor (summaryType : String) : String :=
  (SUMMARY_PROMPTS.lookup summaryType).getD
    ((SUMMARY_PROMPTS.lookup "comprehensive").getD "")

/-- A source dict as consumed by the summary service, which reads `title` and
`content` with `.get` defaults. -/
structure SummarySource where
  title : Option String
  content : Option String
deriving DecidableEq, Repr

/-- The per-source entries of `SummaryService._build_context`, with 1-based
enumeration, `.get` defaults, and `content[:8000]` truncation. -/
def summaryContextParts : Nat → List SummarySource → List String
  | _, [] => []
  | i, s :: rest =>
    ("Source " ++ toString i ++ ": " ++ s.title.getD "Untitled" ++ "\n"
        ++ pyTake (s.content.getD "") 8000)
      :: summaryContextParts (i + 1) rest

/-- Model of `SummaryService._build_context`. -/
def build_summary_context (sources : List SummarySource) : String :=
  String.intercalate "\n\n---\n\n" (summaryContextParts 1 sources)

/-- The `llm_service.chat` invocation made by `SummaryService.generate_summary`. -/
def generate_summary_call (sources : List SummarySource) (summaryType : String) : ChatCall :=
  { messages :=
      [⟨"user", "Please summarize these sources:\n\n" ++ build_summary_context sources⟩]
    systemPrompt := some (summaryPromptFor summaryType)
    temperature := 7/10
    maxTokens := 2000 }

/-- The `llm_service.chat_stream` invocation made by
`SummaryService.generate_summary_stream` (identical construction). -/
def generate_summary_stream_call (sources : List SummarySource) (summaryType : String) :
    ChatCall :=
  { messages :=
      [⟨"user", "Please summarize these sources:\n\n" ++ build_summary_context sources⟩]
    systemPrompt := some (summaryPromptFor summaryType)
    temperature := 7/10
    maxTokens := 2000 }

/-! ### Slides service (`app/services/slides.py`)

The LLM response text is an explicit parameter (`llm_service.chat` is a network
call); `json.loads` of the standard library is abstracted as a parameter
`parse : String → Option _` where `none` models `json.JSONDecodeError`. -/

/-- A slide content value: either a string or a list of bullet strings. -/
inductive SlideContent where
  | str (s : String)
  | items (l : List String)
deriving DecidableEq, Repr

/-- A slide dict as produced by the slides service. -/
structure SlideDict where
  slide_type : String
  title : String
  content : SlideContent
  notes : Option String
deriving DecidableEq, Repr

/-- The parsed JSON object shape of a slides response; `slides = none` models a parsed
object with no `"slides"` key (read with `data.get("slides", [])`). -/
structure SlidesJson where
  slides : Option (List SlideDict)
deriving DecidableEq, Repr

/-- The markdown code-fence stripping applied to the LLM response before
`json.loads`, shared verbatim by `generate_slides` and `generate_script`. -/
def stripCodeFences (content : String) : String :=
  let c0 := pyStrip content
  let c1 := if c0.startsWith "```json" then c0.drop 7 else c0
  let c2 := if c1.startsWith "```" then c1.drop 3 else c1
  let c3 := if c2.endsWith "```" then c2.dropRight 3 else c2
  pyStrip c3

/-- The literal fallback deck returned by `generate_slides` on a JSON parse failure. -/
def fallbackSlides : List SlideDict :=
  [{ slide_type := "title"
     title := "Presentation"
     content := .str "Generated from your sources"
     notes := none },
   { slide_type := "bullets"
     title := "Key Points"
     content := .items ["Unable to parse AI response", "Please try again"]
     notes := none }]

/-- Model of `SlidesService.generate_slides`: reject empty sources, otherwise strip code fences
from the LLM response and parse it; a parse failure is caught and answered with the
literal fallback deck instead of an error. -/
def generate_slides (parse : String → Option SlidesJson) (sources : List SummarySource)
    (llmContent : String) : Except String (List SlideDict) :=
  if sources.isEmpty then .error "No sources provided."
  else
    match parse (stripCodeFences llmContent) with
    | some data => .ok (data.slides.getD [])
    | none => .ok fallbackSlides

/-! ### Podcast service (`app/services/podcast.py`) -/

/-- One dialogue turn dict; the service reads `speaker` and `text` with `.get`
defaults, so missing keys are modelled with `Option`. -/
structure DialogueTurn where
  speaker : Option String
  text : Option String
deriving DecidableEq, Repr

/-- The parsed JSON object of a podcast script; `generate_podcast` reads the turns
with `script.get("dialogue", [])`. -/
structure PodcastScript where
  title : Option String
  dialogue : Option (List DialogueTurn)
deriving DecidableEq, Repr

/-- The literal fallback script returned by `generate_script` on a JSON parse failure. -/
def fallbackScript : PodcastScript :=
  { title := some "Discussion of Your Sources"
    dialogue := some
      [⟨some "HOST_A", some "Welcome! Today we\x27re exploring some interesting content."⟩,
       ⟨some "HOST_B", some "I\x27m excited to discuss what we\x27ve found."⟩,
       ⟨some "HOST_A", some "Let\x27s dive in. Our sources cover some fascinating topics."⟩,
       ⟨some "HOST_B", some "What stood out to you the most?"⟩,
       ⟨some "HOST_A", some "There\x27s so much to unpack here. Thanks for listening!"⟩] }

/-- Model of `PodcastService.generate_script`: reject empty sources, otherwise strip code
fences and parse; a parse failure is caught and answered with the literal fallback
script instead of an error. -/
def generate_script (parse : String → Option PodcastScript) (sources : List SummarySource)
    (llmContent : String) : Except String PodcastScript :=
  if sources.isEmpty then .error "No sources provided."
  else
    match parse (stripCodeFences llmContent) with
    | some script => .ok script
    | none => .ok fallbackScript

/-- The dict `PodcastService.VOICES` (OpenAI voices per host). -/
def VOICES : List (String × String) := [("HOST_A", "onyx"), ("HOST_B", "nova")]

/-- The dict `PodcastService.ELEVENLABS_VOICES`. -/
def ELEVENLABS_VOICES : List (String × String) :=
  [("HOST_A", "21m00Tcm4TlvDq8ikWAM"), ("HOST_B", "EXAVITQu4vr4xnSDxMaL")]

/-- Voice selection per provider: `VOICES.get(speaker, VOICES["HOST_A"])` and its
ElevenLabs counterpart (`"onyx"` and `"21m00Tcm4TlvDq8ikWAM"` are the `HOST_A`
entries of the two dicts). -/
def voiceFor (provider speaker : String) : String :=
  if provider = "elevenlabs" then (ELEVENLABS_VOICES.lookup speaker).getD "21m00Tcm4TlvDq8ikWAM"
  else (VOICES.lookup speaker).getD "onyx"

/-- The audio-segment list built by the `generate_podcast` loop, with each MP3
segment abstracted by its duration in milliseconds (`ttsDuration voice text` is the
duration of the synthesized turn audio).  Turns with empty text are skipped; every
synthesized turn is followed by a 300 ms silent segment.  Concatenation of pydub
segments adds durations, so the combined duration is the sum of this list. -/
def podcastSegments (provider : String) (ttsDuration : String → String → Nat) :
    List DialogueTurn → List Nat
  | [] => []
  | turn :: rest =>
    if turn.text.getD "" = "" then podcastSegments provider ttsDuration rest
    else
      ttsDuration (voiceFor provider (turn.speaker.getD "HOST_A")) (turn.text.getD "")
        :: 300 :: podcastSegments provider ttsDuration rest

/-- Model of `PodcastService.generate_podcast` from the point the script is available: read
the dialogue, reject an empty dialogue, synthesize the segment list, reject an empty
segment list, and return the duration of the concatenated audio. -/
def generate_podcast_duration (script : PodcastScript) (provider : String)
    (ttsDuration : String → String → Nat) : Except String Nat :=
  let dialogue := script.dialogue.getD []
  if dialogue.isEmpty then .error "Failed to generate dialogue script."
  else
    let segments := podcastSegments provider ttsDuration dialogue
    if segments.isEmpty then .error "No audio segments generated."
    else .ok segments.sum

/-! ## Theorems -/

/-- C3: for every non-empty sources input, if the LLM response fails JSON parsing
then `generate_slides` returns exactly the documented fallback payload (the literal
minimal 2-slide deck) and `generate_script` returns exactly the documented fallback
payload (the literal 5-line dialogue), and in neither case is the parse failure
surfaced to the caller as an error (both return `.ok`). -/
theorem c3_parse_failure_fallback
    (parseS : String → Option SlidesJson) (parseP : String → Option PodcastScript)
    (sources : List SummarySource) (contentS contentP : String)
    (hs : sources ≠ [])
    (hS : parseS (stripCodeFences contentS) = none)
    (hP : parseP (stripCodeFences contentP) = none) :
    generate_slides parseS sources contentS = .ok fallbackSlides ∧
    generate_script parseP sources contentP = .ok fallbackScript := by
  unfold generate_slides generate_script
  simp [List.isEmpty_iff, hs, hS, hP]

/-- Witness for C3 at a concrete parse-failing input. -/
theorem c3_parse_failure_fallback_witness :
    generate_slides (fun _ => none) [⟨some "T", some "C"⟩] "not json" = .ok fallbackSlides ∧
    generate_script (fun _ => none) [⟨some "T", some "C"⟩] "not json" = .ok fallbackScript :=
  c3_parse_failure_fallback (fun _ => none) (fun _ => none) [⟨some "T", some "C"⟩]
    "not json" "not json" (by simp) rfl rfl

/-- C4 counterexample: a 3-turn dialogue in which every synthesized turn lasts
1000 ms yields a combined duration of 3900 ms — the loop appends a 300 ms pause
after every turn, including the last — whereas the claim predicts
1000 + 1000 + 1000 + 2 × 300 = 3600 ms. -/
theorem c4_gap_counterexample :
    generate_podcast_duration
      { title := some "Ep"
        dialogue := some
          [⟨some "HOST_A", some "a"⟩, ⟨some "HOST_B", some "b"⟩, ⟨some "HOST_A", some "c"⟩] }
      "openai" (fun _ _ => 1000) = .ok 3900 ∧
    (3900 : ℕ) ≠ 1000 + 1000 + 1000 + 2 * 300 := by
  constructor
  · rfl
  · decide

/-- C4 as amended: `generate_podcast` synthesizes one audio segment per dialogue
turn and concatenates them in dialogue order, each turn followed by a fixed 300 ms
silence gap (including after the final turn), so an n-turn dialogue with non-empty
turn texts yields a combined duration equal to the sum of the per-turn synthesized
durations plus exactly n × 300 ms — for 3 turns, 3 × 300 ms rather than 2 × 300 ms. -/
theorem c4_gap_after_every_turn (script : PodcastScript) (provider : String)
    (tts : String → String → ℕ) (dialogue : List DialogueTurn)
    (hd : script.dialogue = some dialogue) (hne : dialogue ≠ [])
    (hall : ∀ t ∈ dialogue, t.text.getD "" ≠ "") :
    podcastSegments provider tts dialogue
        = (dialogue.map (fun t =>
            [tts (voiceFor provider (t.speaker.getD "HOST_A")) (t.text.getD ""), 300])).flatten ∧
    generate_podcast_duration script provider tts
        = .ok ((dialogue.map (fun t =>
              tts (voiceFor provider (t.speaker.getD "HOST_A")) (t.text.getD ""))).sum
            + 300 * dialogue.length) := by
  have hseg : ∀ (l : List DialogueTurn), (∀ t ∈ l, t.text.getD "" ≠ "") →
      podcastSegments provider tts l
        = (l.map (fun t =>
            [tts (voiceFor provider (t.speaker.getD "HOST_A")) (t.text.getD ""), 300])).flatten := by
    intro l
    induction l with
    | nil => intro _; rfl
    | cons t rest ih =>
      intro h
      have ht : t.text.getD "" ≠ "" := h t (List.mem_cons_self t rest)
      have hrest := ih (fun x hx => h x (List.mem_cons_of_mem t hx))
      simp [podcastSegments, ht, hrest]
  have hsum : ∀ (l : List DialogueTurn),
      ((l.map (fun t =>
          [tts (voiceFor provider (t.speaker.getD "HOST_A")) (t.text.getD ""), 300])).flatten).sum
        = (l.map (fun t =>
            tts (voiceFor provider (t.speaker.getD "HOST_A")) (t.text.getD ""))).sum
          + 300 * l.length := by
    intro l
    induction l with
    | nil => rfl
    | cons t rest ih => simp [ih]; ring
  refine ⟨hseg dialogue hall, ?_⟩
  unfold generate_podcast_duration
  rw [hd]
  obtain ⟨t0, rest0, rfl⟩ := List.exists_cons_of_ne_nil hne
  have ht0 : t0.text.getD "" ≠ "" := hall t0 (List.mem_cons_self t0 rest0)
  have hsegs := hseg (t0 :: rest0) hall
  simp only [Option.getD_some, List.isEmpty_cons]
  rw [if_neg (by simp)]
  rw [hsegs] at *
  rw [if_neg (by simp)]
  rw [hsum (t0 :: rest0)]

/-- Witness for the amended C4 at a concrete 3-turn dialogue. -/
theorem c4_gap_after_every_turn_witness :
    generate_podcast_duration
      { title := some "Ep"
        dialogue := some
          [⟨some "HOST_A", some "x"⟩, ⟨some "HOST_B", some "y"⟩, ⟨some "HOST_A", some "z"⟩] }
      "openai" (fun _ _ => 700)
        = .ok (([⟨some "HOST_A", some "x"⟩, ⟨some "HOST_B", some "y"⟩,
              (⟨some "HOST_A", some "z"⟩ : DialogueTurn)].map (fun t =>
              (fun _ _ => 700) (voiceFor "openai" (t.speaker.getD "HOST_A")) (t.text.getD ""))).sum
            + 300 * 3) :=
  (c4_gap_after_every_turn _ "openai" (fun _ _ => 700)
      [⟨some "HOST_A", some "x"⟩, ⟨some "HOST_B", some "y"⟩, ⟨some "HOST_A", some "z"⟩]
      rfl (by decide) (by decide)).2

/-- C7: for every empty or whitespace-only input text, `generate_embedding` returns
the all-zero vector of the configured dimension (1536) without making a network
call to either backend (the action is `zeroVector`, never a backend call). -/
theorem c7_empty_text_zero_vector (text : String) (provider? : Option String)
    (configured : String) (h : pyStrip text = "") :
    generate_embedding text provider? configured = .zeroVector 1536 ∧
    zeroEmbedding 1536 = List.replicate 1536 (0 : ℚ) ∧
    (∀ s, generate_embedding text provider? configured ≠ .openaiCall s) ∧
    (∀ s, generate_embedding text provider? configured ≠ .ollamaCall s) := by
  unfold generate_embedding
  simp [h, zeroEmbedding]

/-- Witness for C7 on a whitespace-only input. -/
theorem c7_empty_text_zero_vector_witness :
    generate_embedding "  " none "openai" = .zeroVector 1536 :=
  (c7_empty_text_zero_vector "  " none "openai" (by decide)).1

/-- C10: for every sources input, calling `generate_summary` or
`generate_summary_stream` with a `summary_type` outside
\x7bcomprehensive, key_points, brief\x7d selects the comprehensive prompt template and
issues exactly the LLM call that `summary_type = "comprehensive"` would issue
(the model functions are total: no error is raised). -/
theorem c10_unknown_summary_type (sources : List SummarySource) (t : String)
    (h : t ∉ ["comprehensive", "key_points", "brief"]) :
    generate_summary_call sources t = generate_summary_call sources "comprehensive" ∧
    generate_summary_stream_call sources t = generate_summary_stream_call sources "comprehensive" := by
  have h1 : (t == "comprehensive") = false := beq_eq_false_iff_ne.mpr (fun e => h (by simp [e]))
  have h2 : (t == "key_points") = false := beq_eq_false_iff_ne.mpr (fun e => h (by simp [e]))
  have h3 : (t == "brief") = false := beq_eq_false_iff_ne.mpr (fun e => h (by simp [e]))
  have hp : summaryPromptFor t = summaryPromptFor "comprehensive" := by
    unfold summaryPromptFor SUMMARY_PROMPTS
    simp [List.lookup, h1, h2, h3]
  constructor
  · unfold generate_summary_call; rw [hp]
  · unfold generate_summary_stream_call; rw [hp]

/-- Witness for C10 at a concrete unknown summary type. -/
theorem c10_unknown_summary_type_witness :
    generate_summary_call [] "executive" = generate_summary_call [] "comprehensive" :=
  (c10_unknown_summary_type [] "executive" (by decide)).1

/-- C6 counterexample: an unknown provider name supplied as the override is not
treated as the default — `chat` and `chat_stream` raise
`ValueError("Unknown provider: grok")` — even though the same name, had it been
the configured value, would have degraded to the `"openai"` default. -/
theorem c6_invalid_override_counterexample :
    llm_chat (some "grok") "openai" = .error ("Unknown provider: " ++ "grok") ∧
    llm_chat_stream (some "grok") "openai" = .error ("Unknown provider: " ++ "grok") ∧
    llm_get_provider "grok" = "openai" := by
  refine ⟨rfl, rfl, ?_⟩
  decide

/-- C6 as amended: for every `chat` and `chat_stream` call, the provider used is the
caller-supplied override when one is supplied (and non-empty), and otherwise the
single process-wide configured default; an invalid or unknown *configured* name is
degraded to the `"openai"` default, but an invalid or unknown non-empty *override*
raises `ValueError` instead of degrading. -/
theorem c6_provider_resolution (ov : Option String) (cfg : String) :
    llm_get_provider cfg ∈ ["openai", "anthropic", "google", "ollama"] ∧
    ((ov = none ∨ ov = some "") →
      llm_chat ov cfg = .ok (llm_get_provider cfg) ∧
      llm_chat_stream ov cfg = .ok (llm_get_provider cfg)) ∧
    (∀ p, ov = some p → p ≠ "" → p ∈ ["openai", "anthropic", "google", "ollama"] →
      llm_chat ov cfg = .ok p ∧ llm_chat_stream ov cfg = .ok p) ∧
    (∀ p, ov = some p → p ≠ "" → p ∉ ["openai", "anthropic", "google", "ollama"] →
      llm_chat ov cfg = .error ("Unknown provider: " ++ p) ∧
      llm_chat_stream ov cfg = .error ("Unknown provider: " ++ p)) := by
  have hmem : llm_get_provider cfg ∈ ["openai", "anthropic", "google", "ollama"] := by
    unfold llm_get_provider
    split
    · next hc => simpa using hc
    · simp
  have hdisp : ∀ q ∈ ["openai", "anthropic", "google", "ollama"],
      (if q = "openai" then (Except.ok "openai" : Except String String)
       else if q = "anthropic" then .ok "anthropic"
       else if q = "google" then .ok "google"
       else if q = "ollama" then .ok "ollama"
       else .error ("Unknown provider: " ++ q)) = .ok q := by
    intro q hq
    simp only [List.mem_cons, List.not_mem_nil, or_false] at hq
    rcases hq with h | h | h | h <;> subst h <;> rfl
  refine ⟨hmem, ?_, ?_, ?_⟩
  · intro hfalsy
    have hres : resolveProvider ov cfg = llm_get_provider cfg := by
      rcases hfalsy with h | h <;> subst h <;> simp [resolveProvider]
    constructor
    · show (if resolveProvider ov cfg = "openai" then (Except.ok "openai" : Except String String)
        else if resolveProvider ov cfg = "anthropic" then .ok "anthropic"
        else if resolveProvider ov cfg = "google" then .ok "google"
        else if resolveProvider ov cfg = "ollama" then .ok "ollama"
        else .error ("Unknown provider: " ++ resolveProvider ov cfg)) = .ok (llm_get_provider cfg)
      rw [hres]
      exact hdisp _ hmem
    · show (if resolveProvider ov cfg = "openai" then (Except.ok "openai" : Except String String)
        else if resolveProvider ov cfg = "anthropic" then .ok "anthropic"
        else if resolveProvider ov cfg = "google" then .ok "google"
        else if resolveProvider ov cfg = "ollama" then .ok "ollama"
        else .error ("Unknown provider: " ++ resolveProvider ov cfg)) = .ok (llm_get_provider cfg)
      rw [hres]
      exact hdisp _ hmem
  · intro p hp hne hvalid
    subst hp
    have hres : resolveProvider (some p) cfg = p := by simp [resolveProvider, hne]
    constructor
    · show (if resolveProvider (some p) cfg = "openai" then (Except.ok "openai" : Except String String)
        else if resolveProvider (some p) cfg = "anthropic" then .ok "anthropic"
        else if resolveProvider (some p) cfg = "google" then .ok "google"
        else if resolveProvider (some p) cfg = "ollama" then .ok "ollama"
        else .error ("Unknown provider: " ++ resolveProvider (some p) cfg)) = .ok p
      rw [hres]
      exact hdisp _ hvalid
    · show (if resolveProvider (some p) cfg = "openai" then (Except.ok "openai" : Except String String)
        else if resolveProvider (some p) cfg = "anthropic" then .ok "anthropic"
        else if resolveProvider (some p) cfg = "google" then .ok "google"
        else if resolveProvider (some p) cfg = "ollama" then .ok "ollama"
        else .error ("Unknown provider: " ++ resolveProvider (some p) cfg)) = .ok p
      rw [hres]
      exact hdisp _ hvalid
  · intro p hp hne hinvalid
    subst hp
    have hres : resolveProvider (some p) cfg = p := by simp [resolveProvider, hne]
    have h1 : p ≠ "openai" := fun e => hinvalid (by simp [e])
    have h2 : p ≠ "anthropic" := fun e => hinvalid (by simp [e])
    have h3 : p ≠ "google" := fun e => hinvalid (by simp [e])
    have h4 : p ≠ "ollama" := fun e => hinvalid (by simp [e])
    constructor
    · show (if resolveProvider (some p) cfg = "openai" then (Except.ok "openai" : Except String String)
        else if resolveProvider (some p) cfg = "anthropic" then .ok "anthropic"
        else if resolveProvider (some p) cfg = "google" then .ok "google"
        else if resolveProvider (some p) cfg = "ollama" then .ok "ollama"
        else .error ("Unknown provider: " ++ resolveProvider (some p) cfg)) = .error ("Unknown provider: " ++ p)
      rw [hres]
      simp [h1, h2, h3, h4]
    · show (if resolveProvider (some p) cfg = "openai" then (Except.ok "openai" : Except String String)
        else if resolveProvider (some p) cfg = "anthropic" then .ok "anthropic"
        else if resolveProvider (some p) cfg = "google" then .ok "google"
        else if resolveProvider (some p) cfg = "ollama" then .ok "ollama"
        else .error ("Unknown provider: " ++ resolveProvider (some p) cfg)) = .error ("Unknown provider: " ++ p)
      rw [hres]
      simp [h1, h2, h3, h4]

/-- Witness for the amended C6: a valid override is dispatched to, a missing
override falls back to the configured default, and an unknown configured name
degrades to `"openai"`. -/
theorem c6_provider_resolution_witness :
    llm_chat (some "anthropic") "grok" = .ok "anthropic" ∧
    llm_chat none "grok" = .ok (llm_get_provider "grok") :=
  ⟨((c6_provider_resolution (some "anthropic") "grok").2.2.1 "anthropic" rfl (by decide)
      (by decide)).1,
   ((c6_provider_resolution none "grok").2.1 (Or.inl rfl)).1⟩

/-- C9: for every streaming Q&A or summary call, the emitted stream is a sequence of
`data: \x7b"content": ...\x7d` events terminated by a literal `data: [DONE]` event; if the
underlying provider stream fails mid-response, the stream instead ends with a single
`data: \x7b"error": ...\x7d` event after the content events already emitted — the
generator returns normally in both cases (never a protocol-level abort), and every
emitted event is one of the three documented shapes. -/
theorem c9_sse_stream_contract (o : StreamOutcome) :
    (o.failure = none →
      answer_question_stream_events o = o.chunks.map sseContentEvent ++ [sseDoneEvent] ∧
      generate_summary_stream_events o = o.chunks.map sseContentEvent ++ [sseDoneEvent]) ∧
    (∀ e, o.failure = some e →
      answer_question_stream_events o = o.chunks.map sseContentEvent ++ [sseErrorEvent e] ∧
      generate_summary_stream_events o = o.chunks.map sseContentEvent ++ [sseErrorEvent e]) ∧
    (∀ ev ∈ answer_question_stream_events o,
      (∃ c, ev = sseContentEvent c) ∨ ev = sseDoneEvent ∨ ∃ m, ev = sseErrorEvent m) ∧
    (∀ ev ∈ generate_summary_stream_events o,
      (∃ c, ev = sseContentEvent c) ∨ ev = sseDoneEvent ∨ ∃ m, ev = sseErrorEvent m) := by
  have hshape : ∀ ev ∈ answer_question_stream_events o,
      (∃ c, ev = sseContentEvent c) ∨ ev = sseDoneEvent ∨ ∃ m, ev = sseErrorEvent m := by
    intro ev hev
    unfold answer_question_stream_events at hev
    rcases List.mem_append.mp hev with hc | ht
    · obtain ⟨c, _, rfl⟩ := List.mem_map.mp hc
      exact Or.inl ⟨c, rfl⟩
    · cases hf : o.failure with
      | none =>
        rw [hf] at ht
        simp only [List.mem_singleton] at ht
        exact Or.inr (Or.inl ht)
      | some e =>
        rw [hf] at ht
        simp only [List.mem_singleton] at ht
        exact Or.inr (Or.inr ⟨e, ht⟩)
  refine ⟨?_, ?_, hshape, ?_⟩
  · intro hf
    unfold answer_question_stream_events generate_summary_stream_events
    rw [hf]
    exact ⟨rfl, rfl⟩
  · intro e hf
    unfold answer_question_stream_events generate_summary_stream_events
    rw [hf]
    exact ⟨rfl, rfl⟩
  · intro ev hev
    exact hshape ev hev

/-- Witness for C9 at a concrete two-chunk successful stream and a concrete failing
stream. -/
theorem c9_sse_stream_contract_witness :
    (answer_question_stream_events ⟨["Hel", "lo"], none⟩
        = [sseContentEvent "Hel", sseContentEvent "lo"] ++ [sseDoneEvent] ∧
      generate_summary_stream_events ⟨["Hel", "lo"], none⟩
        = [sseContentEvent "Hel", sseContentEvent "lo"] ++ [sseDoneEvent]) ∧
    (answer_question_stream_events ⟨["Hel"], some "boom"⟩
        = [sseContentEvent "Hel"] ++ [sseErrorEvent "boom"] ∧
      generate_summary_stream_events ⟨["Hel"], some "boom"⟩
        = [sseContentEvent "Hel"] ++ [sseErrorEvent "boom"]) :=
  ⟨(c9_sse_stream_contract ⟨["Hel", "lo"], none⟩).1 rfl,
   (c9_sse_stream_contract ⟨["Hel"], some "boom"⟩).2.1 "boom" rfl⟩

/-- C8 counterexample: with an explicitly supplied system prompt `"P"` and a
system-role message `"S"` in the input list, the Anthropic payload carries
`system = "P"` and drops `"S"` entirely — the system-role message is removed from
the wire messages but its content is *not* merged into the system field. -/
theorem c8_system_message_counterexample :
    (chat_anthropic_payload [⟨"system", "S"⟩, ⟨"user", "U"⟩] (some "P") (7/10) 4000).messages
        = [⟨"user", "U"⟩] ∧
    (chat_anthropic_payload [⟨"system", "S"⟩, ⟨"user", "U"⟩] (some "P") (7/10) 4000).system
        = some "P" ∧
    (chat_stream_anthropic_payload [⟨"system", "S"⟩, ⟨"user", "U"⟩] (some "P") (7/10) 4000).system
        = some "P" ∧
    ("P" : String) ≠ "S" := by
  refine ⟨rfl, rfl, rfl, ?_⟩
  decide

/-- C8 as amended: for every input message list sent to the Anthropic backend (sync
or streaming), system-role messages are removed, so the messages array sent over the
wire contains no system-role message; the separate system field of the request is the
caller-supplied system prompt when that prompt is truthy, and otherwise the content
of the first system-role message (when non-empty); further system-role contents are
dropped rather than merged. -/
theorem c8_anthropic_system_extraction (messages : List Message) (sp : Option String)
    (temp : ℚ) (maxTok : ℕ) :
    (chat_anthropic_payload messages sp temp maxTok).messages
        = messages.filter (fun m => !(m.role == "system")) ∧
    (∀ m ∈ (chat_anthropic_payload messages sp temp maxTok).messages, m.role ≠ "system") ∧
    (chat_stream_anthropic_payload messages sp temp maxTok).messages
        = (chat_anthropic_payload messages sp temp maxTok).messages ∧
    (chat_stream_anthropic_payload messages sp temp maxTok).system
        = (chat_anthropic_payload messages sp temp maxTok).system ∧
    (falsyStr sp = false → (chat_anthropic_payload messages sp temp maxTok).system = sp) ∧
    (∀ pre m post, falsyStr sp = true → messages = pre ++ m :: post →
      m.role = "system" → m.content ≠ "" → (∀ m2 ∈ pre, m2.role ≠ "system") →
      (chat_anthropic_payload messages sp temp maxTok).system = some m.content) := by
  have hfst : ∀ (l : List Message) (s : Option String),
      (anthropicSplit l s).1 = l.filter (fun m => !(m.role == "system")) := by
    intro l
    induction l with
    | nil => intro s; rfl
    | cons m rest ih =>
      intro s
      by_cases hm : m.role = "system"
      · have hb : (m.role == "system") = true := beq_iff_eq.mpr hm
        simp [anthropicSplit, hm, List.filter_cons, hb, ih]
      · have hb : (m.role == "system") = false := beq_eq_false_iff_ne.mpr hm
        simp [anthropicSplit, hm, List.filter_cons, hb, ih]
  have hkeep : ∀ (l : List Message) (s : Option String), falsyStr s = false →
      (anthropicSplit l s).2 = s := by
    intro l
    induction l with
    | nil => intro s _; rfl
    | cons m rest ih =>
      intro s hs
      by_cases hm : m.role = "system"
      · simp [anthropicSplit, hm, hs, ih s hs]
      · simp [anthropicSplit, hm, ih s hs]
  have hskip : ∀ (pre : List Message) (rest : List Message) (s : Option String),
      (∀ m2 ∈ pre, m2.role ≠ "system") →
      (anthropicSplit (pre ++ rest) s).2 = (anthropicSplit rest s).2 := by
    intro pre
    induction pre with
    | nil => intro rest s _; rfl
    | cons m2 pre2 ih =>
      intro rest s hpre
      have hm2 : m2.role ≠ "system" := hpre m2 (List.mem_cons_self m2 pre2)
      have := ih rest s (fun x hx => hpre x (List.mem_cons_of_mem m2 hx))
      simp [anthropicSplit, hm2, this]
  have hmsg : (chat_anthropic_payload messages sp temp maxTok).messages
      = messages.filter (fun m => !(m.role == "system")) := hfst messages sp
  refine ⟨hmsg, ?_, rfl, rfl, ?_, ?_⟩
  · intro m hm
    rw [hmsg] at hm
    have hf := (List.mem_filter.mp hm).2
    simpa using hf
  · intro hs
    have h2 := hkeep messages sp hs
    show (if falsyStr (anthropicSplit messages sp).2 then none
          else (anthropicSplit messages sp).2) = sp
    rw [h2, hs]
    simp
  · intro pre m post hs hmsgs hrole hcont hpre
    subst hmsgs
    have h1 : (anthropicSplit (pre ++ m :: post) sp).2 = (anthropicSplit (m :: post) sp).2 :=
      hskip pre (m :: post) sp hpre
    have h2 : (anthropicSplit (m :: post) sp).2 = (anthropicSplit post (some m.content)).2 := by
      simp [anthropicSplit, hrole, hs]
    have hfalsy : falsyStr (some m.content) = false := by simp [falsyStr, hcont]
    have h3 : (anthropicSplit post (some m.content)).2 = some m.content :=
      hkeep post _ hfalsy
    show (if falsyStr (anthropicSplit (pre ++ m :: post) sp).2 then none
          else (anthropicSplit (pre ++ m :: post) sp).2) = some m.content
    rw [h1, h2, h3, hfalsy]
    simp

/-- Witness for the amended C8: with no supplied system prompt, the first system
message content becomes the system field, and the wire messages drop all
system-role entries. -/
theorem c8_anthropic_system_extraction_witness :
    (chat_anthropic_payload [⟨"system", "S"⟩, ⟨"user", "U"⟩] none (7/10) 4000).system
        = some "S" ∧
    (chat_anthropic_payload [⟨"system", "S"⟩, ⟨"user", "U"⟩] none (7/10) 4000).messages
        = [⟨"system", "S"⟩, ⟨"user", "U"⟩].filter (fun m => !(m.role == "system")) :=
  ⟨(c8_anthropic_system_extraction [⟨"system", "S"⟩, ⟨"user", "U"⟩] none (7/10) 4000).2.2.2.2.2
      [] ⟨"system", "S"⟩ [⟨"user", "U"⟩] rfl rfl rfl (by decide) (by intro m2 hm2; cases hm2),
   (c8_anthropic_system_extraction [⟨"system", "S"⟩, ⟨"user", "U"⟩] none (7/10) 4000).1⟩

/-- A mapped list is pointwise related to the original list. -/
theorem forall₂_map_self {α β : Type} (f : α → β) (P : β → α → Prop)
    (h : ∀ a, P (f a) a) : ∀ l : List α, List.Forall₂ P (l.map f) l
  | [] => .nil
  | a :: l => .cons (h a) (forall₂_map_self f P h l)

/-- C2: for every Q&A chat request, the `sources` list of the response is exactly
the ordered projection (id, title, similarity) of the context documents that were
used to build the prompt — hence a subset in the same order (its id sequence is a
sublist of the context id sequence), and the LLM call is built from that same
context list. -/
theorem c2_sources_match_context (db : List NoteRow) (sim : NoteRow → ℚ)
    (userId question : String) (history : List Message) (answer : String) :
    (chat_endpoint db sim userId question history answer).2.sources
        = (chatContextNotes db sim userId).map
            (fun n => { id := n.id, title := n.title, similarity := n.similarity }) ∧
    List.Forall₂ (fun (s : SourceRef) (n : ContextNote) =>
        s.id = n.id ∧ s.title = n.title ∧ s.similarity = n.similarity)
      (chat_endpoint db sim userId question history answer).2.sources
      (chatContextNotes db sim userId) ∧
    ((chat_endpoint db sim userId question history answer).2.sources.map
        (fun s => s.id)).Sublist
      ((chatContextNotes db sim userId).map (fun n => n.id)) ∧
    (chat_endpoint db sim userId question history answer).1
        = answer_question_call question (chatContextNotes db sim userId) history := by
  refine ⟨rfl, ?_, ?_, rfl⟩
  · exact forall₂_map_self _ _ (fun n => ⟨rfl, rfl, rfl⟩) _
  · have h : ((chatContextNotes db sim userId).map
          (fun n => ({ id := n.id, title := n.title, similarity := n.similarity } : SourceRef))).map
            (fun s => s.id)
        = (chatContextNotes db sim userId).map (fun n => n.id) := by
      rw [List.map_map]
      rfl
    show List.Sublist
      (((chatContextNotes db sim userId).map
          (fun n => ({ id := n.id, title := n.title, similarity := n.similarity } : SourceRef))).map
            (fun s => s.id))
      ((chatContextNotes db sim userId).map (fun n => n.id))
    rw [h]

/-- Every row returned by the shared similarity query comes from the notes table and
satisfies the WHERE clause: owner scope, non-null embedding, not archived, and
similarity at least the threshold. -/
theorem mem_similarityRows {db : List NoteRow} {sim : NoteRow → ℚ} {ownerId : String}
    {threshold : ℚ} {lim : ℕ} {r : NoteRow × ℚ}
    (h : r ∈ similarityRows db sim ownerId threshold lim) :
    r.1 ∈ db ∧ r.1.ownerId = ownerId ∧ r.1.hasEmbedding = true ∧
      r.1.isArchived = false ∧ threshold ≤ sim r.1 ∧ r.2 = sim r.1 := by
  unfold similarityRows at h
  have h1 := List.take_subset _ _ h
  have h2 := (List.perm_insertionSort (fun a b : NoteRow × ℚ => b.2 ≤ a.2) _).mem_iff.mp h1
  obtain ⟨n, hn, he⟩ := List.mem_map.mp h2
  obtain ⟨hdb, hcond⟩ := List.mem_filter.mp hn
  simp only [Bool.and_eq_true, beq_iff_eq, Bool.not_eq_true', decide_eq_true_eq] at hcond
  obtain ⟨⟨⟨howner, hemb⟩, harch⟩, hsim⟩ := hcond
  subst he
  exact ⟨hdb, howner, hemb, harch, hsim, rfl⟩

/-- C1: for every semantic retrieval call (the `semantic_search` endpoint and the
retrieval step of the Q&A `chat` endpoint), every returned document belongs to the
notes table, has `owner_id` equal to the requesting user, is not archived, and has
similarity at least the supplied threshold (`0.3` for the chat retrieval); the
surfaced rounded similarity also meets the threshold whenever the threshold is a
multiple of `1/10000` (always, for the chat retrieval). -/
theorem c1_retrieval_scope (db : List NoteRow) (sim : NoteRow → ℚ)
    (ownerId : String) (threshold : ℚ) (lim : ℕ) :
    (∀ r ∈ semantic_search db sim ownerId threshold lim,
      ∃ n, n ∈ db ∧ n.ownerId = ownerId ∧ n.isArchived = false ∧ threshold ≤ sim n ∧
        r.id = n.id ∧ r.title = n.title ∧ r.similarity = round4 (sim n) ∧
        ((threshold * 10000).den = 1 → threshold ≤ r.similarity)) ∧
    (∀ c ∈ chatContextNotes db sim ownerId,
      ∃ n, n ∈ db ∧ n.ownerId = ownerId ∧ n.isArchived = false ∧ (3/10 : ℚ) ≤ sim n ∧
        c.id = n.id ∧ c.title = n.title ∧ c.similarity = round4 (sim n) ∧
        (3/10 : ℚ) ≤ c.similarity) := by
  constructor
  · intro r hr
    unfold semantic_search at hr
    obtain ⟨p, hp, hpe⟩ := List.mem_map.mp hr
    obtain ⟨hdb, howner, _, harch, hsim, hs⟩ := mem_similarityRows hp
    refine ⟨p.1, hdb, howner, harch, hsim, ?_, ?_, ?_, ?_⟩
    · rw [← hpe]; rfl
    · rw [← hpe]; rfl
    · rw [← hpe]; show round4 p.2 = round4 (sim p.1); rw [hs]
    · intro hden
      rw [← hpe]
      show threshold ≤ round4 p.2
      rw [hs]
      exact le_round4_of_le hden hsim
  · intro c hc
    unfold chatContextNotes at hc
    obtain ⟨p, hp, hpe⟩ := List.mem_map.mp hc
    obtain ⟨hdb, howner, _, harch, hsim, hs⟩ := mem_similarityRows hp
    have hden : ((3/10 : ℚ) * 10000).den = 1 := by norm_num
    refine ⟨p.1, hdb, howner, harch, hsim, ?_, ?_, ?_, ?_⟩
    · rw [← hpe]
    · rw [← hpe]
    · rw [← hpe]; show round4 p.2 = round4 (sim p.1); rw [hs]
    · rw [← hpe]
      show (3/10 : ℚ) ≤ round4 p.2
      rw [hs]
      exact le_round4_of_le hden hsim

/-- Witness for C1 at a concrete one-note table whose note matches the query. -/
theorem c1_retrieval_scope_witness :
    ∃ n, n ∈ [(⟨"n1", "u1", "T", "body", [], true, false⟩ : NoteRow)] ∧
      n.ownerId = "u1" ∧ n.isArchived = false ∧ (0 : ℚ) ≤ (fun _ => (1 : ℚ)) n ∧
      (searchResultOfRow (⟨"n1", "u1", "T", "body", [], true, false⟩, (1 : ℚ))).id = n.id ∧
      (searchResultOfRow (⟨"n1", "u1", "T", "body", [], true, false⟩, (1 : ℚ))).title = n.title ∧
      (searchResultOfRow (⟨"n1", "u1", "T", "body", [], true, false⟩, (1 : ℚ))).similarity
        = round4 ((fun _ => (1 : ℚ)) n) ∧
      (((0 : ℚ) * 10000).den = 1 → (0 : ℚ) ≤
        (searchResultOfRow (⟨"n1", "u1", "T", "body", [], true, false⟩, (1 : ℚ))).similarity) :=
  (c1_retrieval_scope [⟨"n1", "u1", "T", "body", [], true, false⟩]
      (fun _ => (1 : ℚ)) "u1" 0 10).1
    (searchResultOfRow (⟨"n1", "u1", "T", "body", [], true, false⟩, (1 : ℚ)))
    (by simp [semantic_search, similarityRows, List.insertionSort, List.orderedInsert])

instance : IsTotal EmbeddingItem (fun a b => a.index ≤ b.index) :=
  ⟨fun a b => Nat.le_total a.index b.index⟩

instance : IsTrans EmbeddingItem (fun a b => a.index ≤ b.index) :=
  ⟨fun _ _ _ h1 h2 => Nat.le_trans h1 h2⟩

instance : IsAntisymm EmbeddingItem (fun a b => a.index < b.index) :=
  ⟨fun _ _ h1 h2 => absurd (Nat.lt_trans h1 h2) (Nat.lt_irrefl _)⟩

/-- Every item of an enumeration starting at `i` has index at least `i`. -/
theorem enumItems_le_index (f : String → List ℚ) :
    ∀ (i : ℕ) (ts : List String) (x : EmbeddingItem), x ∈ enumItems f i ts → i ≤ x.index := by
  intro i ts
  induction ts generalizing i with
  | nil => intro x hx; cases hx
  | cons t ts ih =>
    intro x hx
    rcases List.mem_cons.mp hx with h | h
    · subst h; exact le_refl i
    · exact Nat.le_of_succ_le (ih (i + 1) x h)

/-- The enumeration carries strictly increasing indices. -/
theorem enumItems_pairwise_lt (f : String → List ℚ) :
    ∀ (i : ℕ) (ts : List String),
      (enumItems f i ts).Pairwise (fun a b => a.index < b.index) := by
  intro i ts
  induction ts generalizing i with
  | nil => exact List.Pairwise.nil
  | cons t ts ih =>
    refine List.Pairwise.cons ?_ (ih (i + 1))
    intro x hx
    exact Nat.lt_of_lt_of_le (Nat.lt_succ_self i) (enumItems_le_index f (i + 1) ts x hx)

/-- Projecting the embeddings out of the enumeration recovers the embedded texts. -/
theorem enumItems_map_embedding (f : String → List ℚ) :
    ∀ (i : ℕ) (ts : List String),
      (enumItems f i ts).map (fun e => e.embedding) = ts.map f := by
  intro i ts
  induction ts generalizing i with
  | nil => rfl
  | cons t ts ih => simp [enumItems, ih]

/-- Sorting any permutation of the canonical in-order response by index recovers the
canonical response: the indices are distinct, so the index-sorted order is unique. -/
theorem insertionSort_perm_canonical (f : String → List ℚ) (texts : List String)
    (resp : List EmbeddingItem) (hp : resp.Perm (canonicalResponse f texts)) :
    List.insertionSort (fun a b : EmbeddingItem => a.index ≤ b.index) resp
      = canonicalResponse f texts := by
  have hperm :
      (List.insertionSort (fun a b : EmbeddingItem => a.index ≤ b.index) resp).Perm
        (canonicalResponse f texts) :=
    (List.perm_insertionSort _ resp).trans hp
  have hsorted_le :
      List.Sorted (fun a b : EmbeddingItem => a.index ≤ b.index)
        (List.insertionSort (fun a b : EmbeddingItem => a.index ≤ b.index) resp) :=
    List.sorted_insertionSort _ resp
  have hcan_lt : (canonicalResponse f texts).Pairwise (fun a b => a.index < b.index) :=
    enumItems_pairwise_lt f 0 _
  have hcan_ne :
      (canonicalResponse f texts).Pairwise (fun a b : EmbeddingItem => a.index ≠ b.index) :=
    hcan_lt.imp (fun h => Nat.ne_of_lt h)
  have hne :
      (List.insertionSort (fun a b : EmbeddingItem => a.index ≤ b.index) resp).Pairwise
        (fun a b : EmbeddingItem => a.index ≠ b.index) :=
    (hperm.pairwise_iff (fun h e => h e.symm)).mpr hcan_ne
  have hsorted_lt :
      List.Sorted (fun a b : EmbeddingItem => a.index < b.index)
        (List.insertionSort (fun a b : EmbeddingItem => a.index ≤ b.index) resp) :=
    (hsorted_le.and hne).imp (fun h => Nat.lt_of_le_of_ne h.1 h.2)
  exact List.eq_of_perm_of_sorted hperm hsorted_lt hcan_lt

/-- Zero-masking over the embeddings of the padded texts yields the per-position
zero-or-embedding of each cleaned text. -/
theorem maskEmptyTexts_map (g : String → List ℚ) :
    ∀ (cl : List String),
      maskEmptyTexts cl ((cl.map (fun t => if t = "" then " " else t)).map g)
        = cl.map (fun t => if t = "" then zeroEmbedding 1536 else g t) := by
  intro cl
  induction cl with
  | nil => rfl
  | cons t ts ih =>
    simp only [List.map_cons, maskEmptyTexts]
    rw [ih]
    by_cases ht : t = "" <;> simp [ht]

/-- C5: for every input texts list, `generate_embeddings_batch` preserves input
order regardless of the order in which the backend returns results: the OpenAI path
reorders the response items by the index returned alongside each vector, producing
at position `i` exactly the backend embedding of input `i` (or the zero vector for
an originally empty input), with one output per input; and the Ollama path falls
back to sequential single-text calls when the backend returns a missing or
mismatched number of embeddings. -/
theorem c5_batch_order_preserved (f single : String → List ℚ) (texts : List String)
    (resp : List EmbeddingItem) (respE : List (List ℚ))
    (hresp : resp.Perm (canonicalResponse f texts))
    (hbad : respE.isEmpty ∨ respE.length ≠ texts.length) :
    generate_embeddings_batch_openai texts resp
        = (cleanTexts texts).map (fun t => if t = "" then zeroEmbedding 1536 else f t) ∧
    (generate_embeddings_batch_openai texts resp).length = texts.length ∧
    generate_embeddings_batch_ollama texts respE single = texts.map single := by
  have hsort := insertionSort_perm_canonical f texts resp hresp
  have h1 : generate_embeddings_batch_openai texts resp
      = (cleanTexts texts).map (fun t => if t = "" then zeroEmbedding 1536 else f t) := by
    unfold generate_embeddings_batch_openai
    rw [hsort]
    unfold canonicalResponse
    dsimp only
    rw [enumItems_map_embedding]
    unfold processedTexts
    exact maskEmptyTexts_map f (cleanTexts texts)
  refine ⟨h1, ?_, ?_⟩
  · rw [h1, List.length_map]
    unfold cleanTexts
    rw [List.length_map]
  · unfold generate_embeddings_batch_ollama
    rcases hbad with h | h
    · simp [h]
    · simp [h]

/-- Witness for C5: a two-text batch whose OpenAI backend response arrives in
reversed index order, and an Ollama backend response with a missing embeddings
array. -/
theorem c5_batch_order_preserved_witness :
    generate_embeddings_batch_openai ["ab", ""]
        [⟨1, [mkRat 1 1]⟩, ⟨0, [mkRat 2 1]⟩]
        = (cleanTexts ["ab", ""]).map
            (fun t => if t = "" then zeroEmbedding 1536
              else (fun s => [mkRat (Int.ofNat s.length) 1]) t) ∧
    generate_embeddings_batch_ollama ["ab", ""] [] (fun _ => [])
        = ["ab", ""].map (fun _ => []) :=
  have h := c5_batch_order_preserved (fun s => [mkRat (Int.ofNat s.length) 1]) (fun _ => [])
    ["ab", ""] [⟨1, [mkRat 1 1]⟩, ⟨0, [mkRat 2 1]⟩] [] (by decide) (Or.inl rfl)
  ⟨h.1, h.2.2⟩

end Notebook
